import Mathlib

set_option maxHeartbeats 1000000
set_option linter.unusedVariables false

/- Shallow embedding of the generation-and-fallback client of the gameenglish
repository (src/services/geminiService.ts, plus the question-distribution
variant concatenated into src/App.tsx).  JavaScript values flowing through
JSON.parse, property access and object spreads are modelled by the Json type
below; JS numbers are modelled as exact integers (every numeric value these
functions produce or consume is an integer, and the rounding of the double
literals 0.3 and 0.2 never changes the floors taken at the magnitudes in
scope).  The external request is modelled by a RequestOutcome value: either
the awaited call throws, or it yields a response whose text, after the
cleanJson code-fence stripping, either fails JSON.parse or parses to a Json
value. -/

inductive Json where
  | null
  | undefined
  | bool (b : Bool)
  | num (n : Int)
  | str (s : String)
  | arr (elems : List Json)
  | obj (fields : List (String × Json))
deriving Repr

namespace Json

/-- JS truthiness of a value. -/
def truthy : Json → Bool
  | .null => false
  | .undefined => false
  | .bool b => b
  | .num n => n != 0
  | .str s => !s.isEmpty
  | .arr _ => true
  | .obj _ => true

def isNull : Json → Bool
  | .null => true
  | _ => false

/-- First-match lookup of a field in an object field list. -/
def objLookup (fields : List (String × Json)) (k : String) : Option Json :=
  (fields.find? (fun p => p.1 == k)).map (fun p => p.2)

/-- JS property access v[k]: undefined on objects lacking the field and on
primitives.  Callers must handle the null/undefined case (where JS raises a
TypeError) before calling this. -/
def getField : Json → String → Json
  | .obj fields, k => (objLookup fields k).getD .undefined
  | _, _ => .undefined

/-- Setting a field as in an object literal override: replaces the first
occurrence in place, else appends. -/
def setField : List (String × Json) → String → Json → List (String × Json)
  | [], k, v => [(k, v)]
  | (k1, v1) :: fs, k, v =>
      if k1 == k then (k1, v) :: fs else (k1, v1) :: setField fs k v

/-- JS (v.length > 0): arrays and strings have a length; on the other values
in the modelled payload space .length is undefined and (undefined > 0) is
false. -/
def lenPos : Json → Bool
  | .arr xs => !xs.isEmpty
  | .str s => !s.isEmpty
  | _ => false

end Json

/-- JS (a || b). -/
def jsOr (a b : Json) : Json := if a.truthy then a else b

/-- Model of Array.prototype.map with the (element, index) callback: the
callback receives the running index. -/
def mapIdx {α β : Type} (f : Nat → α → β) : Nat → List α → List β
  | _, [] => []
  | i, x :: xs => f i x :: mapIdx f (i + 1) xs

/-- Fields produced by an object spread of a value, as in an object literal
starting with three dots: objects contribute their fields, arrays and
strings contribute index-keyed entries, the remaining primitives contribute
nothing. -/
def spreadFields : Json → List (String × Json)
  | .obj fields => fields
  | .arr xs => mapIdx (fun i v => (toString i, v)) 0 xs
  | .str s => mapIdx (fun i c => (toString i, Json.str (String.mk [c]))) 0 s.data
  | _ => []

mutual

/-- True when the value contains no JS undefined anywhere (JSON.parse output
always satisfies this). -/
def Json.undefFree : Json → Bool
  | .undefined => false
  | .arr xs => undefFreeList xs
  | .obj fs => undefFreeFields fs
  | _ => true

def undefFreeList : List Json → Bool
  | [] => true
  | x :: xs => x.undefFree && undefFreeList xs

def undefFreeFields : List (String × Json) → Bool
  | [] => true
  | p :: fs => p.2.undefFree && undefFreeFields fs

end

mutual

/-- Semantic effect of JSON.stringify followed by JSON.parse, as happens to
every value stored in localStorage: undefined becomes null inside arrays and
is dropped from objects.  (A top-level undefined would make the read back
entry unparseable and hence a cache miss; it is mapped to null here, which
is equally falsy and also treated as a miss.) -/
def Json.roundTrip : Json → Json
  | .null => .null
  | .undefined => .null
  | .bool b => .bool b
  | .num n => .num n
  | .str s => .str s
  | .arr xs => .arr (roundTripList xs)
  | .obj fs => .obj (roundTripFields fs)

def roundTripList : List Json → List Json
  | [] => []
  | x :: xs => x.roundTrip :: roundTripList xs

def roundTripFields : List (String × Json) → List (String × Json)
  | [] => []
  | (k, v) :: fs =>
      match v with
      | .undefined => roundTripFields fs
      | _ => (k, v.roundTrip) :: roundTripFields fs

end

/-- The outcome of the single external generateContent request: the awaited
call throws, or it returns a response whose (code-fence-stripped) text either
fails JSON.parse or parses to a value. -/
inductive RequestOutcome where
  | fail
  | ok (parsed : Option Json)

/-- The browser localStorage as seen through getFromCache/saveToCache:
an association list of entries plus flags telling whether getItem or setItem
throws (e.g. storage quota exceeded for writes). -/
structure Store (α : Type) where
  entries : List (String × α)
  getThrows : Bool
  setThrows : Bool

def Store.read {α : Type} (s : Store α) (key : String) : Option α :=
  if s.getThrows then none
  else (s.entries.find? (fun p => p.1 == key)).map (fun p => p.2)

/-- A store with no entries and a functioning backend. -/
def freshStore {α : Type} : Store α := ⟨[], false, false⟩

/-- Result of one generation call: the returned records, the store after the
call, and whether an external request was issued. -/
structure GenOut (α σ : Type) where
  result : α
  store : σ
  requested : Bool

/-- Difficulty enum from src/types.ts; the string values are its enum
payloads. -/
inductive Difficulty where
  | EASY
  | MEDIUM
  | HARD
deriving Repr, DecidableEq

def Difficulty.toStr : Difficulty → String
  | .EASY => "Easy"
  | .MEDIUM => "Medium"
  | .HARD => "Hard"

/-- QuestionType enum from src/types.ts. -/
inductive QuestionType where
  | READING
  | LISTENING
  | SPEAKING
  | WRITING
deriving Repr, DecidableEq

def QuestionType.toStr : QuestionType → String
  | .READING => "READING"
  | .LISTENING => "LISTENING"
  | .SPEAKING => "SPEAKING"
  | .WRITING => "WRITING"

namespace LingoQuest

/- Embedding of the first document of src/services/geminiService.ts (the
lingoquest_v7 client: generateTopics, generateQuestions, generateLeaderboard
and their caching helpers). -/

def CACHE_PREFIX : String := "lingoquest_v7_"

/-- getFromCache: localStorage.getItem under the version prefix followed by
JSON.parse of the stored string; read errors are caught and yield null.  The
parse of a stringified value is folded into saveToCache (see
Store.read/saveToCache). -/
def getFromCache (s : Store Json) (key : String) : Option Json :=
  s.read (CACHE_PREFIX ++ key)

/-- saveToCache: JSON.stringify then localStorage.setItem under the version
prefix; a throwing setItem (quota exceeded) is caught and logged, leaving the
store unchanged.  The stringify/parse round trip a stored value undergoes is
applied at write time. -/
def saveToCache (s : Store Json) (key : String) (v : Json) : Store Json :=
  if s.setThrows then s
  else { s with entries := (CACHE_PREFIX ++ key, v.roundTrip) :: s.entries }

def WORLD_THEMES : List String :=
  [ "Village of Beginnings (Daily Basics)",
    "Forest of Family & Roots",
    "Market City (Shopping & Food)",
    "Port of Travelers (Directions)",
    "Valley of Vitality (Health)",
    "Tower of Commerce (Work)",
    "Ocean of Emotions (Feelings)",
    "Cyber Citadel (Technology)",
    "Senate of Debate (Advanced)",
    "Summit of Mastery (Literature)" ]

/-- Theme picked from startLevel: one theme per 10-level band, clamped to the
last entry.  (The source computes Math.floor((startLevel-1)/10); startLevel
is at least 1 wherever the app calls this, matching Nat subtraction.) -/
def currentTheme (startLevel : Nat) : String :=
  (WORLD_THEMES.getD (min ((startLevel - 1) / 10) (WORLD_THEMES.length - 1)) "")

/-- The per-record difficulty stamp of the generateTopics success path:
startLevel > 50 ? HARD : startLevel > 20 ? MEDIUM : EASY.  The same
expression also yields the difficultyLabel used in the request prompt. -/
def batchDifficulty (startLevel : Nat) : String :=
  if 50 < startLevel then "Hard"
  else if 20 < startLevel then "Medium"
  else "Easy"

/-- One fallback topic of the generateTopics catch branch. -/
def fallbackTopic (startLevel i : Nat) : Json :=
  .obj [ ("id", .str ("fallback-" ++ toString (startLevel + i))),
         ("name", .str ("Zone " ++ toString (startLevel + i))),
         ("description", .str "A mysterious place."),
         ("difficulty", .str "Easy"),
         ("icon", .str "üìç"),
         ("isLocked", .bool true),
         ("levelNumber", .num (Int.ofNat (startLevel + i))),
         ("chapterName", .str "Unknown") ]

/-- The Array.from(\x7blength: count\x7d).map fallback of generateTopics. -/
def fallbackTopics (startLevel count : Nat) : List Json :=
  mapIdx (fun i _ => fallbackTopic startLevel i) 0 (List.replicate count ())

/-- Per-record stamping of the generateTopics success path: the raw record is
spread and id, levelNumber, difficulty, isLocked, chapterName are set. -/
def processTopic (startLevel : Nat) (theme : String) (index : Nat) (t : Json) : Json :=
  .obj (Json.setField (Json.setField (Json.setField (Json.setField (Json.setField
    (spreadFields t)
    "id" (.str ("topic-" ++ toString (startLevel + index))))
    "levelNumber" (.num (Int.ofNat (startLevel + index))))
    "difficulty" (.str (batchDifficulty startLevel)))
    "isLocked" (.bool true))
    "chapterName" (.str theme))

/-- generateTopics (geminiService.ts lines 76-144).  Cache hit (a truthy
cached value) returns the cached value without a request.  Otherwise one
request is made; a successful array payload is stamped and cached; a request
failure, an unparseable text, or a payload on which the .map call raises
(anything that is not an array) lands in the catch branch, which returns the
count fallback topics uncached. -/
def generateTopics (startLevel count : Nat) (outcome : RequestOutcome)
    (s : Store Json) : GenOut Json (Store Json) :=
  let cacheKey := "topics_" ++ toString startLevel ++ "_" ++ toString count
  let core : GenOut Json (Store Json) :=
    match outcome with
    | .fail => ⟨.arr (fallbackTopics startLevel count), s, true⟩
    | .ok parsed =>
      match parsed with
      | some (.arr xs) =>
          let theme := currentTheme startLevel
          let processed := mapIdx (fun i t => processTopic startLevel theme i t) 0 xs
          ⟨.arr processed, saveToCache s cacheKey (.arr processed), true⟩
      | _ => ⟨.arr (fallbackTopics startLevel count), s, true⟩
  match getFromCache s cacheKey with
  | some v => if v.truthy then ⟨v, s, false⟩ else core
  | none => core

/-- The Question records built by generateFallbackQuestions (all fields are
present in the source literal). -/
structure Question where
  id : String
  type : QuestionType
  question : String
  options : List String
  correctAnswer : String
  explanation : String
  vietnameseTranslation : String
  listeningText : String
deriving Repr, DecidableEq

/-- generateFallbackQuestions (geminiService.ts lines 54-72).  The embedded
Date.now() timestamp is the now argument; the type rotates through the fixed
cycle READING, LISTENING, WRITING indexed by (startIndex + i) mod 3. -/
def generateFallbackQuestions (topicName : String) (count : Nat)
    (startIndex : Nat) (now : Nat) : List Question :=
  mapIdx (fun i _ =>
    let id := startIndex + i
    { id := "fallback-" ++ toString now ++ "-" ++ toString id
      type := [QuestionType.READING, QuestionType.LISTENING,
               QuestionType.WRITING].getD (id % 3) QuestionType.READING
      question := "Challenge #" ++ toString (id + 1) ++ " for " ++ topicName
        ++ ": What is a key word related to this topic?"
      options := ["Word A", "Word B", "Word C", "Word D"]
      correctAnswer := "Word A"
      explanation := "This is a local challenge generated because the connection to the Game Master was weak."
      vietnameseTranslation := "C√¢u h·ªèi th·ª≠ th√°ch c·ª•c b·ªô (do l·ªói k·∫øt n·ªëi)."
      listeningText := "Listen carefully. This is a practice sentence about " ++ topicName ++ "."
      : Question }) 0 (List.replicate count ())

/-- A fallback Question as it sits in the returned array (a plain JS
object). -/
def Question.toJson (q : Question) : Json :=
  .obj [ ("id", .str q.id),
         ("type", .str q.type.toStr),
         ("question", .str q.question),
         ("options", .arr (q.options.map Json.str)),
         ("correctAnswer", .str q.correctAnswer),
         ("explanation", .str q.explanation),
         ("vietnameseTranslation", .str q.vietnameseTranslation),
         ("listeningText", .str q.listeningText) ]

/-- The inner parse/unwrap block of generateQuestions (lines 190-205): an
array is used directly; an object with an array-valued items field is
unwrapped; everything else (parse error, null - whose property access throws
and is caught - or any other shape) resets to the empty list. -/
def extractQuestions : Option Json → List Json
  | none => []
  | some (.arr xs) => xs
  | some (.obj fs) =>
      match Json.objLookup fs "items" with
      | some (.arr ys) => ys
      | _ => []
  | some _ => []

def defaultOptions : Json :=
  .arr [.str "Yes", .str "No", .str "Maybe", .str "Unsure"]

/-- Per-record processing of generateQuestions: spread the raw record, stamp
the id, and default missing/falsy options. -/
def processQuestion (seed i : Nat) (q : Json) : Json :=
  .obj (Json.setField (Json.setField (spreadFields q)
    "id" (.str ("q-" ++ toString seed ++ "-" ++ toString i)))
    "options" (jsOr (q.getField "options") defaultOptions))

/-- generateQuestions (geminiService.ts lines 146-234).  No caching.  seed is
the Date.now() randomSeed taken at request time, now the Date.now() embedded
in any fallback ids.  A null element in the raw array makes the q.options
access of the processing map throw, which the outer catch turns into a full
fallback batch.  A shortfall is backfilled with fallback questions continuing
the index sequence; a surplus is truncated to count. -/
def generateQuestions (topicName : String) (difficulty : Difficulty)
    (count : Nat) (outcome : RequestOutcome) (seed now : Nat) : List Json :=
  match outcome with
  | .fail => (generateFallbackQuestions topicName count 0 now).map Question.toJson
  | .ok parsed =>
    let raw := extractQuestions parsed
    if raw.any Json.isNull then
      (generateFallbackQuestions topicName count 0 now).map Question.toJson
    else
      let processed := mapIdx (fun i q => processQuestion seed i q) 0 raw
      let filled :=
        if processed.length < count then
          processed ++ (generateFallbackQuestions topicName
            (count - processed.length) processed.length now).map Question.toJson
        else processed
      if count < filled.length then filled.take count else filled

/-- The String.replace of the leaderboard cache key: all whitespace
removed. -/
def stripWhitespace (s : String) : String :=
  String.mk (s.data.filter (fun c => !c.isWhitespace))

/-- Per-entry processing of generateLeaderboard: spread and stamp rank =
index + 1. -/
def processEntry (i : Nat) (d : Json) : Json :=
  .obj (Json.setField (spreadFields d) "rank" (.num (Int.ofNat (i + 1))))

/-- generateLeaderboard (geminiService.ts lines 236-269).  On any failure
(request throw, parse error, or a payload without .map) the catch branch
returns the empty array uncached. -/
def generateLeaderboard (topicName : String) (outcome : RequestOutcome)
    (s : Store Json) : GenOut Json (Store Json) :=
  let cacheKey := "leaderboard_" ++ stripWhitespace topicName
  let core : GenOut Json (Store Json) :=
    match outcome with
    | .fail => ⟨.arr [], s, true⟩
    | .ok parsed =>
      match parsed with
      | some (.arr xs) =>
          let processed := mapIdx (fun i d => processEntry i d) 0 xs
          ⟨.arr processed, saveToCache s cacheKey (.arr processed), true⟩
      | _ => ⟨.arr [], s, true⟩
  match getFromCache s cacheKey with
  | some v => if v.truthy then ⟨v, s, false⟩ else core
  | none => core

end LingoQuest

/-- The question-count distribution of the generateQuestions variant embedded
in src/App.tsx (lines 458-461 of the concatenated file): reading and
listening get Math.max(1, Math.floor(count * 0.3)), speaking gets
Math.max(1, Math.floor(count * 0.2)), and writing gets the remainder (an
ordinary JS number, so it may be negative for tiny counts). -/
def questionTypeCounts (count : Nat) : Nat × Nat × Nat × Int :=
  let readingCount := max 1 (count * 3 / 10)
  let listeningCount := max 1 (count * 3 / 10)
  let speakingCount := max 1 (count * 2 / 10)
  let writingCount : Int :=
    (count : Int) - readingCount - listeningCount - speakingCount
  (readingCount, listeningCount, speakingCount, writingCount)

namespace LingoLife

/- Embedding of the second document of src/services/geminiService.ts (the
lingolife_v2 exploration client: generateLocation and its caching
helpers). -/

/-- WordDetail as built by generateLocation; field values come straight from
the raw payload and may be any JS value (including undefined). -/
structure WordDetail where
  english : Json
  vietnamese : Json
  pronunciation : Json
  type : Json
  exampleSentence : Json
  usagePatterns : Json
  description : Json
deriving Repr

structure LocItem where
  id : String
  name : Json
  emoji : Json
  isCollected : Bool
  wordDetail : WordDetail
deriving Repr

structure Location where
  id : String
  name : String
  description : Json
  backgroundTheme : Json
  items : List LocItem
  exits : Json
deriving Repr

def CACHE_PREFIX : String := "lingolife_v2_"

/-- getFromCache of the lingolife client.  A cached Location is a JS object
and hence always truthy, so a present entry is always a hit; the
stringify/parse round trip of the store is modelled as the identity (no claim
depends on the stored value of a Location being renormalized). -/
def getFromCache (s : Store Location) (key : String) : Option Location :=
  s.read (CACHE_PREFIX ++ key)

/-- saveToCache of the lingolife client: a throwing setItem is caught and
ignored. -/
def saveToCache (s : Store Location) (key : String) (v : Location) : Store Location :=
  if s.setThrows then s
  else { s with entries := (CACHE_PREFIX ++ key, v) :: s.entries }

/-- JS toLowerCase restricted to ASCII letters (the only characters the
claims exercise). -/
def jsLowerChar (c : Char) : Char :=
  if 65 ≤ c.toNat ∧ c.toNat ≤ 90 then Char.ofNat (c.toNat + 32) else c

def jsToLowerCase (s : String) : String :=
  String.mk (s.data.map jsLowerChar)

/-- The .replace of the location cache key: every whitespace character is
replaced by an underscore (the regex is global). -/
def replaceWsWithUnderscore (s : String) : String :=
  String.mk (s.data.map (fun c => if c.isWhitespace then '_' else c))

/-- The cache key of generateLocation (geminiService.ts line 301):
loc_ followed by the lowercased name with whitespace turned into
underscores. -/
def locationCacheKey (locationName : String) : String :=
  "loc_" ++ replaceWsWithUnderscore (jsToLowerCase locationName)

/-- The fallback Location of the generateLocation catch branch. -/
def fallbackLocation (locationName : String) : Location :=
  { id := locationName
    name := locationName
    description := .str "You are in a quiet place, but the details are blurry."
    items := []
    exits := .arr [ .obj [ ("direction", .str "Go Back"),
                           ("targetLocationName", .str "Bedroom"),
                           ("emoji", .str "🔙") ] ]
    backgroundTheme := .str "bg-gray-100" }

/-- Per-item construction of the generateLocation success path (lines
373-389): ids embed the Date.now() timestamp and the index, emoji and type
get falsy defaults, and usagePatterns keeps the supplied value when it is
truthy with positive length and otherwise becomes the singleton holding the
legacy exampleSentence field. -/
def buildItem (now idx : Nat) (item : Json) : LocItem :=
  { id := "item-" ++ toString now ++ "-" ++ toString idx
    name := item.getField "name"
    emoji := jsOr (item.getField "emoji") (.str "📦")
    isCollected := false
    wordDetail :=
      { english := item.getField "english"
        vietnamese := item.getField "vietnamese"
        pronunciation := item.getField "pronunciation"
        type := jsOr (item.getField "type") (.str "noun")
        exampleSentence := item.getField "exampleSentence"
        usagePatterns :=
          (let up := item.getField "usagePatterns"
           if up.truthy && up.lenPos then up
           else .arr [item.getField "exampleSentence"])
        description := jsOr (item.getField "description") (.str "A common thing.") } }

/-- Assembling the Location literal of the success path.  none models a
runtime TypeError escaping to the catch branch: field access on a null data
value, calling .map on a truthy non-array items value, or field access on a
null element of the items array. -/
def buildLocation (locationName : String) (data : Json) (now : Nat) : Option Location :=
  if data.isNull then none
  else
    match jsOr (data.getField "items") (.arr []) with
    | .arr rawItems =>
        if rawItems.any Json.isNull then none
        else some
          { id := locationName
            name := locationName
            description := data.getField "description"
            backgroundTheme := jsOr (data.getField "theme") (.str "bg-slate-50")
            items := mapIdx (fun idx item => buildItem now idx item) 0 rawItems
            exits := jsOr (data.getField "exits") (.arr []) }
    | _ => none

/-- generateLocation (geminiService.ts lines 300-408).  A cached Location is
returned unconditionally; otherwise one request is made, a usable payload is
assembled and cached, and any failure (request throw, parse error, or a
TypeError while assembling) yields the uncached fallback location. -/
def generateLocation (locationName : String) (outcome : RequestOutcome)
    (s : Store Location) (now : Nat) : GenOut Location (Store Location) :=
  let cacheKey := locationCacheKey locationName
  let core : GenOut Location (Store Location) :=
    match outcome with
    | .fail => ⟨fallbackLocation locationName, s, true⟩
    | .ok parsed =>
      match parsed with
      | none => ⟨fallbackLocation locationName, s, true⟩
      | some data =>
        match buildLocation locationName data now with
        | none => ⟨fallbackLocation locationName, s, true⟩
        | some loc => ⟨loc, saveToCache s cacheKey loc, true⟩
  match getFromCache s cacheKey with
  | some loc => ⟨loc, s, false⟩
  | none => core

end LingoLife

theorem mapIdx_length {α β : Type} (f : Nat → α → β) (i : Nat) (l : List α) :
    (mapIdx f i l).length = l.length := by
  induction l generalizing i with
  | nil => rfl
  | cons x xs ih => simp [mapIdx, ih]

theorem mapIdx_getD {α β : Type} (f : Nat → α → β) (i : Nat) (l : List α)
    (j : Nat) (d : β) (d0 : α) (h : j < l.length) :
    (mapIdx f i l).getD j d = f (i + j) (l.getD j d0) := by
  induction l generalizing i j with
  | nil => simp at h
  | cons x xs ih =>
    cases j with
    | zero => simp [mapIdx]
    | succ j2 =>
      have h2 : j2 < xs.length := by simpa using h
      have := ih (i + 1) j2 h2
      simp only [mapIdx, List.getD_cons_succ, this]
      congr 1
      omega

theorem mapIdx_mem {α β : Type} {f : Nat → α → β} {i : Nat} {l : List α} {t : β}
    (h : t ∈ mapIdx f i l) : ∃ j x, x ∈ l ∧ t = f j x := by
  induction l generalizing i with
  | nil => simp [mapIdx] at h
  | cons x xs ih =>
    simp only [mapIdx, List.mem_cons] at h
    rcases h with h | h
    · exact ⟨i, x, List.mem_cons_self x xs, h⟩
    · rcases ih h with ⟨j, y, hy, ht⟩
      exact ⟨j, y, List.mem_cons_of_mem x hy, ht⟩

theorem mapIdx_map {α β γ : Type} (f : Nat → α → β) (g : β → γ) (i : Nat)
    (l : List α) :
    (mapIdx f i l).map g = mapIdx (fun j x => g (f j x)) i l := by
  induction l generalizing i with
  | nil => rfl
  | cons x xs ih => simp [mapIdx, ih]

theorem mapIdx_congr {α β : Type} {f g : Nat → α → β} (h : ∀ j x, f j x = g j x)
    (i : Nat) (l : List α) : mapIdx f i l = mapIdx g i l := by
  induction l generalizing i with
  | nil => rfl
  | cons x xs ih => simp [mapIdx, h, ih]

theorem objLookup_setField_self (fs : List (String × Json)) (k : String)
    (v : Json) : Json.objLookup (Json.setField fs k v) k = some v := by
  induction fs with
  | nil => simp [Json.setField, Json.objLookup, List.find?]
  | cons p fs ih =>
    obtain ⟨k1, v1⟩ := p
    by_cases h : (k1 == k) = true
    · simp [Json.setField, h, Json.objLookup, List.find?]
    · simp only [Json.setField, Bool.not_eq_true] at *
      rw [if_neg (by simp [h])]
      simpa [Json.objLookup, List.find?, h] using ih

theorem objLookup_setField_ne (fs : List (String × Json)) (k k2 : String)
    (v : Json) (h : k2 ≠ k) :
    Json.objLookup (Json.setField fs k v) k2 = Json.objLookup fs k2 := by
  have hbk : (k == k2) = false := by simpa using fun e => h e.symm
  induction fs with
  | nil => simp [Json.setField, Json.objLookup, List.find?, hbk]
  | cons p fs ih =>
    obtain ⟨k1, v1⟩ := p
    by_cases h1 : (k1 == k) = true
    · have hk1 : k1 = k := by simpa using h1
      simp [Json.setField, h1, Json.objLookup, List.find?, hk1, hbk]
    · rw [Json.setField]
      rw [if_neg (by simp_all)]
      by_cases h2 : (k1 == k2) = true
      · simp [Json.objLookup, List.find?, h2]
      · simp only [Json.objLookup, List.find?] at *
        simp [h2, ih]

theorem undefFreeList_iff (l : List Json) :
    undefFreeList l = true ↔ ∀ x ∈ l, x.undefFree = true := by
  induction l with
  | nil => simp [undefFreeList]
  | cons x xs ih => simp [undefFreeList, Bool.and_eq_true, ih]

theorem undefFreeFields_iff (fs : List (String × Json)) :
    undefFreeFields fs = true ↔ ∀ p ∈ fs, p.2.undefFree = true := by
  induction fs with
  | nil => simp [undefFreeFields]
  | cons p fs ih => simp [undefFreeFields, Bool.and_eq_true, ih]

theorem undefFree_setField (fs : List (String × Json)) (k : String) (v : Json)
    (hfs : undefFreeFields fs = true) (hv : v.undefFree = true) :
    undefFreeFields (Json.setField fs k v) = true := by
  induction fs with
  | nil => simp [Json.setField, undefFreeFields, hv]
  | cons p fs ih =>
    obtain ⟨k1, v1⟩ := p
    simp only [undefFreeFields, Bool.and_eq_true] at hfs
    by_cases h : (k1 == k) = true
    · simp [Json.setField, h, undefFreeFields, Bool.and_eq_true, hv, hfs.2]
    · rw [Json.setField, if_neg (by simp_all)]
      simp [undefFreeFields, Bool.and_eq_true, hfs.1, ih hfs.2]

theorem undefFree_spreadFields (j : Json) (h : j.undefFree = true) :
    undefFreeFields (spreadFields j) = true := by
  cases j with
  | obj fs => simpa [spreadFields, Json.undefFree] using h
  | arr xs =>
      have hl : ∀ x ∈ xs, x.undefFree = true :=
        (undefFreeList_iff xs).mp (by simpa [Json.undefFree] using h)
      rw [undefFreeFields_iff]
      intro p hp
      rcases mapIdx_mem hp with ⟨i, x, hx, rfl⟩
      exact hl x hx
  | str s =>
      rw [undefFreeFields_iff]
      intro p hp
      rcases mapIdx_mem hp with ⟨i, c, hc, rfl⟩
      rfl
  | null => simp [spreadFields, undefFreeFields]
  | undefined => simp [spreadFields, undefFreeFields]
  | bool b => simp [spreadFields, undefFreeFields]
  | num n => simp [spreadFields, undefFreeFields]

theorem roundTripFields_cons_ne_undef (k : String) (v : Json)
    (fs : List (String × Json)) (h : v ≠ Json.undefined) :
    roundTripFields ((k, v) :: fs) = (k, v.roundTrip) :: roundTripFields fs := by
  cases v <;> first | rfl | exact absurd rfl h

mutual

theorem roundTrip_eq_self : ∀ (j : Json), j.undefFree = true → j.roundTrip = j
  | .null, _ => rfl
  | .bool b, _ => rfl
  | .num n, _ => rfl
  | .str s, _ => rfl
  | .undefined, h => by simp [Json.undefFree] at h
  | .arr xs, h => by
      have hx : undefFreeList xs = true := by simpa [Json.undefFree] using h
      simp [Json.roundTrip, roundTripList_eq_self xs hx]
  | .obj fs, h => by
      have hx : undefFreeFields fs = true := by simpa [Json.undefFree] using h
      simp [Json.roundTrip, roundTripFields_eq_self fs hx]

theorem roundTripList_eq_self :
    ∀ (l : List Json), undefFreeList l = true → roundTripList l = l
  | [], _ => rfl
  | x :: xs, h => by
      have h1 : x.undefFree = true ∧ undefFreeList xs = true := by
        simpa [undefFreeList, Bool.and_eq_true] using h
      simp [roundTripList, roundTrip_eq_self x h1.1, roundTripList_eq_self xs h1.2]

theorem roundTripFields_eq_self :
    ∀ (fs : List (String × Json)), undefFreeFields fs = true → roundTripFields fs = fs
  | [], _ => rfl
  | (k, v) :: fs, h => by
      have h1 : v.undefFree = true ∧ undefFreeFields fs = true := by
        simpa [undefFreeFields, Bool.and_eq_true] using h
      have hv : v ≠ Json.undefined := by
        intro e
        rw [e] at h1
        simpa [Json.undefFree] using h1.1
      rw [roundTripFields_cons_ne_undef k v fs hv,
          roundTrip_eq_self v h1.1, roundTripFields_eq_self fs h1.2]

end

theorem processTopic_levelNumber (sl : Nat) (th : String) (i : Nat) (t : Json) :
    (LingoQuest.processTopic sl th i t).getField "levelNumber" =
      .num (Int.ofNat (sl + i)) := by
  unfold LingoQuest.processTopic
  show (Json.objLookup _ "levelNumber").getD .undefined = _
  rw [objLookup_setField_ne _ _ _ _ (by decide),
      objLookup_setField_ne _ _ _ _ (by decide),
      objLookup_setField_ne _ _ _ _ (by decide),
      objLookup_setField_self]
  rfl

theorem processTopic_difficulty (sl : Nat) (th : String) (i : Nat) (t : Json) :
    (LingoQuest.processTopic sl th i t).getField "difficulty" =
      .str (LingoQuest.batchDifficulty sl) := by
  unfold LingoQuest.processTopic
  show (Json.objLookup _ "difficulty").getD .undefined = _
  rw [objLookup_setField_ne _ _ _ _ (by decide),
      objLookup_setField_ne _ _ _ _ (by decide),
      objLookup_setField_self]
  rfl

theorem fallbackTopic_levelNumber (sl i : Nat) :
    (LingoQuest.fallbackTopic sl i).getField "levelNumber" =
      .num (Int.ofNat (sl + i)) := rfl

theorem fallbackTopic_difficulty (sl i : Nat) :
    (LingoQuest.fallbackTopic sl i).getField "difficulty" = .str "Easy" := rfl

theorem fallbackTopics_length (sl c : Nat) :
    (LingoQuest.fallbackTopics sl c).length = c := by
  simp [LingoQuest.fallbackTopics, mapIdx_length]

theorem fallbackTopics_getD (sl c j : Nat) (h : j < c) (d : Json) :
    (LingoQuest.fallbackTopics sl c).getD j d = LingoQuest.fallbackTopic sl j := by
  unfold LingoQuest.fallbackTopics
  rw [mapIdx_getD _ _ _ _ _ () (by simpa using h), Nat.zero_add]

theorem generateFallbackQuestions_length (t : String) (c si now : Nat) :
    (LingoQuest.generateFallbackQuestions t c si now).length = c := by
  simp [LingoQuest.generateFallbackQuestions, mapIdx_length]

/-- On a payload from which no question records can be extracted (parse
error, empty object, null, any non-array without an items array), a
generateQuestions call for a positive count returns exactly the full
fallback batch. -/
theorem generateQuestions_empty_extract (t : String) (d : Difficulty)
    (c : Nat) (parsed : Option Json) (seed now : Nat)
    (hraw : LingoQuest.extractQuestions parsed = []) (hc : 1 ≤ c) :
    LingoQuest.generateQuestions t d c (RequestOutcome.ok parsed) seed now =
      (LingoQuest.generateFallbackQuestions t c 0 now).map
        LingoQuest.Question.toJson := by
  unfold LingoQuest.generateQuestions
  simp only [hraw, List.any_nil, Bool.false_eq_true, if_false, mapIdx,
    List.length_nil, List.nil_append, Nat.sub_zero]
  have hc0 : 0 < c := hc
  rw [if_pos hc0]
  have hlen : ((LingoQuest.generateFallbackQuestions t c 0 now).map
      LingoQuest.Question.toJson).length = c := by
    rw [List.length_map, generateFallbackQuestions_length]
  rw [if_neg (by rw [hlen]; omega)]

theorem generateQuestions_length (t : String) (d : Difficulty) (c : Nat)
    (o : RequestOutcome) (seed now : Nat) :
    (LingoQuest.generateQuestions t d c o seed now).length = c := by
  unfold LingoQuest.generateQuestions
  cases o with
  | fail => simp [generateFallbackQuestions_length]
  | ok parsed =>
    by_cases hn : (LingoQuest.extractQuestions parsed).any Json.isNull = true
    · simp [hn, generateFallbackQuestions_length]
    · rw [Bool.not_eq_true] at hn
      simp only [hn, Bool.false_eq_true, if_false]
      by_cases hlt :
          (mapIdx (fun i q => LingoQuest.processQuestion seed i q) 0
            (LingoQuest.extractQuestions parsed)).length < c
      · rw [if_pos hlt]
        have hlen :
            ((mapIdx (fun i q => LingoQuest.processQuestion seed i q) 0
                (LingoQuest.extractQuestions parsed)) ++
              (LingoQuest.generateFallbackQuestions t
                (c - (mapIdx (fun i q => LingoQuest.processQuestion seed i q) 0
                  (LingoQuest.extractQuestions parsed)).length)
                (mapIdx (fun i q => LingoQuest.processQuestion seed i q) 0
                  (LingoQuest.extractQuestions parsed)).length now).map
                LingoQuest.Question.toJson).length = c := by
          simp only [List.length_append, List.length_map,
            generateFallbackQuestions_length]
          omega
        rw [if_neg (by omega), hlen]
      · rw [if_neg hlt]
        by_cases hgt :
            c < (mapIdx (fun i q => LingoQuest.processQuestion seed i q) 0
              (LingoQuest.extractQuestions parsed)).length
        · rw [if_pos hgt]
          simp only [List.length_take]
          omega
        · rw [if_neg hgt]
          omega

/-- Unfolding of generateTopics on a cache miss. -/
theorem generateTopics_miss (sl c : Nat) (o : RequestOutcome) (s : Store Json)
    (h : LingoQuest.getFromCache s
      ("topics_" ++ toString sl ++ "_" ++ toString c) = none) :
    LingoQuest.generateTopics sl c o s =
      (match o with
      | .ok (some (.arr xs)) =>
          ⟨.arr (mapIdx
              (fun i t => LingoQuest.processTopic sl (LingoQuest.currentTheme sl) i t)
              0 xs),
            LingoQuest.saveToCache s
              ("topics_" ++ toString sl ++ "_" ++ toString c)
              (.arr (mapIdx
                (fun i t => LingoQuest.processTopic sl (LingoQuest.currentTheme sl) i t)
                0 xs)), true⟩
      | _ => ⟨.arr (LingoQuest.fallbackTopics sl c), s, true⟩) := by
  unfold LingoQuest.generateTopics
  simp only [h]
  cases o with
  | fail => rfl
  | ok parsed =>
    cases parsed with
    | none => rfl
    | some j => cases j <;> rfl

/-- Unfolding of generateLocation on a cache miss. -/
theorem generateLocation_miss (n : String) (o : RequestOutcome)
    (s : Store LingoLife.Location) (now : Nat)
    (h : LingoLife.getFromCache s (LingoLife.locationCacheKey n) = none) :
    LingoLife.generateLocation n o s now =
      (match o with
      | .ok (some data) =>
          (match LingoLife.buildLocation n data now with
          | none => ⟨LingoLife.fallbackLocation n, s, true⟩
          | some loc =>
              ⟨loc, LingoLife.saveToCache s (LingoLife.locationCacheKey n) loc, true⟩)
      | _ => ⟨LingoLife.fallbackLocation n, s, true⟩) := by
  unfold LingoLife.generateLocation
  simp only [h]
  cases o with
  | fail => rfl
  | ok parsed =>
    cases parsed with
    | none => rfl
    | some data => rfl

theorem undefFree_processTopic (sl : Nat) (th : String) (i : Nat) (t : Json)
    (h : t.undefFree = true) :
    (LingoQuest.processTopic sl th i t).undefFree = true := by
  unfold LingoQuest.processTopic
  simp only [Json.undefFree]
  refine undefFree_setField _ _ _
    (undefFree_setField _ _ _
      (undefFree_setField _ _ _
        (undefFree_setField _ _ _
          (undefFree_setField _ _ _ (undefFree_spreadFields t h) rfl) rfl) rfl) rfl) rfl

/-- Array.from with a length and an index-only callback, as a range map. -/
theorem mapIdx_replicate {β : Type} (h : Nat → β) (j n : Nat) :
    mapIdx (fun i _ => h i) j (List.replicate n ()) =
      (List.range n).map (fun i => h (j + i)) := by
  induction n generalizing j h with
  | zero => rfl
  | succ n ih =>
    rw [List.replicate_succ, List.range_succ_eq_map]
    simp only [mapIdx, List.map_cons, List.map_map, Nat.add_zero]
    refine congrArg₂ _ rfl ?_
    rw [ih (fun i => h i) (j + 1)]
    apply List.map_congr_left
    intro i hi
    simp only [Function.comp]
    congr 1
    omega

/-- The element list of an array value (used to count returned records). -/
def jsonElems : Json → List Json
  | .arr xs => xs
  | _ => []

/-- The first element of an array value. -/
def headJson : Json → Json
  | .arr (x :: _) => x
  | _ => .undefined

/-- A response whose text is not JSON: JSON.parse throws. -/
def payloadNotJson : RequestOutcome := .ok none

/-- A response whose text parses to the empty object. -/
def payloadEmptyObj : RequestOutcome := .ok (some (.obj []))

/-- A response whose text parses to null. -/
def payloadNull : RequestOutcome := .ok (some .null)

/-- A response whose text parses to the array 1, 2, 3 (elements of the wrong
shape). -/
def payloadArr123 : RequestOutcome :=
  .ok (some (.arr [.num 1, .num 2, .num 3]))

/-- Blanks the id of a fallback question (the only field carrying the
timestamp token). -/
def eraseQuestionId (q : LingoQuest.Question) : LingoQuest.Question :=
  { q with id := "" }

def dummyQuestion : LingoQuest.Question :=
  { id := "", type := .READING, question := "", options := [],
    correctAnswer := "", explanation := "", vietnameseTranslation := "",
    listeningText := "" }

theorem buildItem_usagePatterns (now idx : Nat) (raw : Json) :
    (LingoLife.buildItem now idx raw).wordDetail.usagePatterns.lenPos = true ∧
    (∀ xs, (LingoLife.buildItem now idx raw).wordDetail.usagePatterns =
        Json.arr xs → xs ≠ []) ∧
    ((raw.getField "usagePatterns" = Json.undefined ∨
        raw.getField "usagePatterns" = Json.arr []) →
      (LingoLife.buildItem now idx raw).wordDetail.usagePatterns =
        Json.arr [raw.getField "exampleSentence"]) := by
  have hup : (LingoLife.buildItem now idx raw).wordDetail.usagePatterns =
      (if (raw.getField "usagePatterns").truthy &&
          (raw.getField "usagePatterns").lenPos
        then raw.getField "usagePatterns"
        else Json.arr [raw.getField "exampleSentence"]) := rfl
  by_cases h : ((raw.getField "usagePatterns").truthy &&
      (raw.getField "usagePatterns").lenPos) = true
  · rw [Bool.and_eq_true] at h
    have hval : (LingoLife.buildItem now idx raw).wordDetail.usagePatterns =
        raw.getField "usagePatterns" := by
      rw [hup, if_pos (by rw [Bool.and_eq_true]; exact h)]
    refine ⟨by rw [hval]; exact h.2, ?_, ?_⟩
    · intro xs hxs
      intro hnil
      rw [hval] at hxs
      rw [hxs, hnil] at h
      simp [Json.lenPos] at h
    · intro hcase
      rcases hcase with hcase | hcase <;> rw [hcase] at h
      · simp [Json.truthy] at h
      · simp [Json.lenPos] at h
  · have hval : (LingoLife.buildItem now idx raw).wordDetail.usagePatterns =
        Json.arr [raw.getField "exampleSentence"] := by
      rw [hup, if_neg (by simpa using h)]
    refine ⟨by rw [hval]; rfl, ?_, fun _ => hval⟩
    intro xs hxs
    rw [hval] at hxs
    intro hnil
    rw [hnil] at hxs
    simp at hxs

theorem genTopics_result_setThrows (sl c : Nat) (o : RequestOutcome)
    (e : List (String × Json)) (g b1 b2 : Bool) :
    (LingoQuest.generateTopics sl c o ⟨e, g, b1⟩).result =
      (LingoQuest.generateTopics sl c o ⟨e, g, b2⟩).result := by
  unfold LingoQuest.generateTopics
  simp only [LingoQuest.getFromCache, Store.read]
  repeat' split
  all_goals rfl

theorem genLeaderboard_result_setThrows (topicName : String)
    (o : RequestOutcome) (e : List (String × Json)) (g b1 b2 : Bool) :
    (LingoQuest.generateLeaderboard topicName o ⟨e, g, b1⟩).result =
      (LingoQuest.generateLeaderboard topicName o ⟨e, g, b2⟩).result := by
  unfold LingoQuest.generateLeaderboard
  simp only [LingoQuest.getFromCache, Store.read]
  repeat' split
  all_goals rfl

theorem genLocation_result_setThrows (locName : String) (o : RequestOutcome)
    (e : List (String × LingoLife.Location)) (g b1 b2 : Bool) (now : Nat) :
    (LingoLife.generateLocation locName o ⟨e, g, b1⟩ now).result =
      (LingoLife.generateLocation locName o ⟨e, g, b2⟩ now).result := by
  unfold LingoLife.generateLocation
  simp only [LingoLife.getFromCache, Store.read]
  repeat' split
  all_goals rfl

/-- C1: for every count at least 1 and every outcome of the single external
request (request failure, unparseable text, non-array JSON, a wrapper object
with an items array, or an array with zero, fewer than, exactly, or more
than count elements), generateQuestions returns a list of exactly count
records: shortfalls are backfilled continuing the index sequence and a
surplus is truncated to count. -/
theorem claim_C1_exact_count (topicName : String) (difficulty : Difficulty)
    (count : Nat) (outcome : RequestOutcome) (seed now : Nat)
    (hc : 1 ≤ count) :
    (LingoQuest.generateQuestions topicName difficulty count outcome
      seed now).length = count :=
  generateQuestions_length topicName difficulty count outcome seed now

theorem claim_C1_witness :
    1 ≤ 5 ∧
    (LingoQuest.generateQuestions "Village of Beginnings" Difficulty.EASY 5
      (RequestOutcome.ok (some (Json.arr
        [Json.obj [("question", Json.str "What is bread?")]])))
      7 9).length = 5 :=
  ⟨by decide,
   claim_C1_exact_count "Village of Beginnings" Difficulty.EASY 5
     (RequestOutcome.ok (some (Json.arr
       [Json.obj [("question", Json.str "What is bread?")]])))
     7 9 (by decide)⟩

/-- C6: for every count at least 1, the per-type counts of the distribution
variant of generateQuestions give each of the first three categories
(Reading 30 percent, Listening 30 percent, Speaking 20 percent) the floor of
count times its ratio with a minimum of 1, give Writing the remainder, and
the four realized counts sum to exactly count. -/
theorem claim_C6_distribution_sums (count : Nat) (hc : 1 ≤ count) :
    questionTypeCounts count =
      (max 1 (count * 3 / 10), max 1 (count * 3 / 10), max 1 (count * 2 / 10),
        (count : Int) - (max 1 (count * 3 / 10) : Nat)
          - (max 1 (count * 3 / 10) : Nat) - (max 1 (count * 2 / 10) : Nat)) ∧
    ((questionTypeCounts count).1 : Int) + ((questionTypeCounts count).2.1 : Int)
      + ((questionTypeCounts count).2.2.1 : Int) + (questionTypeCounts count).2.2.2
      = (count : Int) := by
  refine ⟨rfl, ?_⟩
  show ((max 1 (count * 3 / 10) : Nat) : Int) + ((max 1 (count * 3 / 10) : Nat) : Int)
      + ((max 1 (count * 2 / 10) : Nat) : Int)
      + ((count : Int) - (max 1 (count * 3 / 10) : Nat)
          - (max 1 (count * 3 / 10) : Nat) - (max 1 (count * 2 / 10) : Nat))
      = (count : Int)
  ring

theorem claim_C6_witness :
    1 ≤ 7 ∧
    questionTypeCounts 7 = (2, 2, 1, 2) ∧
    ((questionTypeCounts 7).1 : Int) + ((questionTypeCounts 7).2.1 : Int)
      + ((questionTypeCounts 7).2.2.1 : Int) + (questionTypeCounts 7).2.2.2
      = (7 : Int) :=
  ⟨by decide, by decide, (claim_C6_distribution_sums 7 (by decide)).2⟩

/-- C7: two calls to generateFallbackQuestions with identical topicName,
count and startIndex produce lists identical in every field except the
timestamp token embedded in the id, and every record's type is drawn from
the fixed cycle Reading, Listening, Writing indexed by
(startIndex + i) mod 3, never influenced by the timestamp. -/
theorem claim_C7_fallback_deterministic (topicName : String)
    (count startIndex t1 t2 : Nat) :
    ((LingoQuest.generateFallbackQuestions topicName count startIndex t1).map
        eraseQuestionId =
      (LingoQuest.generateFallbackQuestions topicName count startIndex t2).map
        eraseQuestionId) ∧
    ((LingoQuest.generateFallbackQuestions topicName count startIndex t1).map
        (fun q => q.type) =
      (List.range count).map (fun i =>
        [QuestionType.READING, QuestionType.LISTENING,
          QuestionType.WRITING].getD ((startIndex + i) % 3)
          QuestionType.READING)) ∧
    ((LingoQuest.generateFallbackQuestions topicName count startIndex t1).map
        (fun q => q.id) =
      (List.range count).map (fun i =>
        "fallback-" ++ toString t1 ++ "-" ++ toString (startIndex + i))) := by
  unfold LingoQuest.generateFallbackQuestions
  refine ⟨?_, ?_, ?_⟩
  · rw [mapIdx_map, mapIdx_map]
    exact mapIdx_congr (fun j x => rfl) 0 (List.replicate count ())
  · rw [mapIdx_map, mapIdx_replicate]
    apply List.map_congr_left
    intro i hi
    simp only [Nat.zero_add]
  · rw [mapIdx_map, mapIdx_replicate]
    apply List.map_congr_left
    intro i hi
    simp only [Nat.zero_add]

/-- C9: a throwing cache write (storage quota exceeded) is swallowed inside
saveToCache and never propagates: generateTopics, generateLeaderboard and
generateLocation return exactly the records they would return had the write
succeeded, for every store content and request outcome. -/
theorem claim_C9_write_failure_swallowed (e : List (String × Json)) (g : Bool)
    (sl c : Nat) (o : RequestOutcome) (topicName locName : String)
    (le : List (String × LingoLife.Location)) (lg : Bool) (now : Nat) :
    ((LingoQuest.generateTopics sl c o ⟨e, g, true⟩).result =
      (LingoQuest.generateTopics sl c o ⟨e, g, false⟩).result) ∧
    ((LingoQuest.generateLeaderboard topicName o ⟨e, g, true⟩).result =
      (LingoQuest.generateLeaderboard topicName o ⟨e, g, false⟩).result) ∧
    ((LingoLife.generateLocation locName o ⟨le, lg, true⟩ now).result =
      (LingoLife.generateLocation locName o ⟨le, lg, false⟩ now).result) :=
  ⟨genTopics_result_setThrows sl c o e g true false,
   genLeaderboard_result_setThrows topicName o e g true false,
   genLocation_result_setThrows locName o le lg true false now⟩

/-- C10: every batch returned by generateTopics on a cache miss is
difficulty-uniform: on the success path all topics carry the single value
determined by startLevel alone (Hard above 50, else Medium above 20, else
Easy), on the fallback path all topics carry Easy; the difficulty is never
recomputed per topic even when the levelNumber range crosses a 20 or 50
threshold. -/
theorem claim_C10_difficulty_uniform (sl c : Nat) (o : RequestOutcome)
    (s : Store Json)
    (hmiss : LingoQuest.getFromCache s
      ("topics_" ++ toString sl ++ "_" ++ toString c) = none) :
    (∀ xs, o = RequestOutcome.ok (some (Json.arr xs)) →
      ∀ t ∈ jsonElems (LingoQuest.generateTopics sl c o s).result,
        t.getField "difficulty" = Json.str (LingoQuest.batchDifficulty sl)) ∧
    ((∀ xs, o ≠ RequestOutcome.ok (some (Json.arr xs))) →
      ∀ t ∈ jsonElems (LingoQuest.generateTopics sl c o s).result,
        t.getField "difficulty" = Json.str "Easy") ∧
    (50 < sl → LingoQuest.batchDifficulty sl = "Hard") ∧
    (sl ≤ 50 → 20 < sl → LingoQuest.batchDifficulty sl = "Medium") ∧
    (sl ≤ 20 → LingoQuest.batchDifficulty sl = "Easy") := by
  refine ⟨?_, ?_, ?_, ?_, ?_⟩
  · intro xs ho
    subst ho
    have hres : (LingoQuest.generateTopics sl c
        (RequestOutcome.ok (some (Json.arr xs))) s).result =
        Json.arr (mapIdx
          (fun i t => LingoQuest.processTopic sl (LingoQuest.currentTheme sl) i t)
          0 xs) := by
      rw [generateTopics_miss sl c (RequestOutcome.ok (some (Json.arr xs))) s hmiss]
    rw [hres]
    intro t ht
    simp only [jsonElems] at ht
    rcases mapIdx_mem ht with ⟨j, x, hx, rfl⟩
    exact processTopic_difficulty sl (LingoQuest.currentTheme sl) j x
  · intro hne
    have hres : (LingoQuest.generateTopics sl c o s).result =
        Json.arr (LingoQuest.fallbackTopics sl c) := by
      rw [generateTopics_miss sl c o s hmiss]
      cases o with
      | fail => rfl
      | ok parsed =>
        cases parsed with
        | none => rfl
        | some j =>
          cases j with
          | arr xs => exact absurd rfl (hne xs)
          | null => rfl
          | undefined => rfl
          | bool b => rfl
          | num n => rfl
          | str s2 => rfl
          | obj fs => rfl
    rw [hres]
    intro t ht
    simp only [jsonElems] at ht
    unfold LingoQuest.fallbackTopics at ht
    rcases mapIdx_mem ht with ⟨j, u, hu, rfl⟩
    exact fallbackTopic_difficulty sl j
  · intro h
    unfold LingoQuest.batchDifficulty
    rw [if_pos h]
  · intro h1 h2
    unfold LingoQuest.batchDifficulty
    rw [if_neg (by omega), if_pos h2]
  · intro h
    unfold LingoQuest.batchDifficulty
    rw [if_neg (by omega), if_neg (by omega)]

theorem claim_C10_witness :
    (LingoQuest.getFromCache (freshStore : Store Json)
      ("topics_" ++ toString 45 ++ "_" ++ toString 10) = none) ∧
    ((LingoQuest.processTopic 45 (LingoQuest.currentTheme 45) 0
        (Json.obj [])).getField "difficulty" =
      Json.str (LingoQuest.batchDifficulty 45)) ∧
    (45 ≤ 50 ∧ 20 < 45 ∧ LingoQuest.batchDifficulty 45 = "Medium") :=
  ⟨rfl,
   (claim_C10_difficulty_uniform 45 10
      (RequestOutcome.ok (some (Json.arr [Json.obj []]))) freshStore rfl).1
     [Json.obj []] rfl
     (LingoQuest.processTopic 45 (LingoQuest.currentTheme 45) 0 (Json.obj []))
     (by
       show LingoQuest.processTopic 45 (LingoQuest.currentTheme 45) 0 (Json.obj []) ∈
         [LingoQuest.processTopic 45 (LingoQuest.currentTheme 45) 0 (Json.obj [])]
       exact List.mem_singleton.mpr rfl),
   by decide, by decide,
   (claim_C10_difficulty_uniform 45 10
      (RequestOutcome.ok (some (Json.arr [Json.obj []]))) freshStore rfl).2.2.2.1
     (by decide) (by decide)⟩

/-- C2 counterexample: with an empty cache, a successful external call that
returns the empty array makes generateTopics(1, 10) return zero records, not
the requested ten — the success path never backfills under-delivery. -/
theorem claim_C2_counterexample :
    (jsonElems (LingoQuest.generateTopics 1 10
        (RequestOutcome.ok (some (Json.arr []))) freshStore).result).length = 0 ∧
    ¬ (jsonElems (LingoQuest.generateTopics 1 10
        (RequestOutcome.ok (some (Json.arr []))) freshStore).result).length = 10 :=
  ⟨rfl, by decide⟩

/-- C2 amended: on a cache miss, generateTopics(startLevel, count) always
returns a batch whose levelNumber fields form the contiguous range starting
at startLevel; on request failure or a non-array payload it returns exactly
count fallback records, but on a successful array response it returns one
record per raw element, so the caller receives exactly count records only
when the external call yields exactly count. -/
theorem claim_C2_amended_contiguous (sl c : Nat) (o : RequestOutcome)
    (s : Store Json) (hsl : 1 ≤ sl) (hc : 1 ≤ c)
    (hmiss : LingoQuest.getFromCache s
      ("topics_" ++ toString sl ++ "_" ++ toString c) = none) :
    ∃ l : List Json,
      (LingoQuest.generateTopics sl c o s).result = Json.arr l ∧
      (∀ j, j < l.length →
        (l.getD j Json.undefined).getField "levelNumber" =
          Json.num (Int.ofNat (sl + j))) ∧
      (∀ xs, o = RequestOutcome.ok (some (Json.arr xs)) →
        l.length = xs.length) ∧
      ((∀ xs, o ≠ RequestOutcome.ok (some (Json.arr xs))) → l.length = c) := by
  rw [generateTopics_miss sl c o s hmiss]
  have hfallback :
      (∀ j, j < (LingoQuest.fallbackTopics sl c).length →
        ((LingoQuest.fallbackTopics sl c).getD j Json.undefined).getField
          "levelNumber" = Json.num (Int.ofNat (sl + j))) := by
    intro j hj
    rw [fallbackTopics_length] at hj
    rw [fallbackTopics_getD sl c j hj]
    exact fallbackTopic_levelNumber sl j
  cases o with
  | fail =>
    refine ⟨LingoQuest.fallbackTopics sl c, rfl, hfallback, ?_, ?_⟩
    · intro xs h
      cases h
    · intro h
      exact fallbackTopics_length sl c
  | ok parsed =>
    cases parsed with
    | none =>
      refine ⟨LingoQuest.fallbackTopics sl c, rfl, hfallback, ?_, ?_⟩
      · intro xs h
        cases h
      · intro h
        exact fallbackTopics_length sl c
    | some j =>
      cases j with
      | arr xs =>
        refine ⟨mapIdx
            (fun i t => LingoQuest.processTopic sl (LingoQuest.currentTheme sl) i t)
            0 xs, rfl, ?_, ?_, ?_⟩
        · intro j hj
          rw [mapIdx_length] at hj
          rw [mapIdx_getD _ _ _ _ _ Json.undefined hj, Nat.zero_add]
          exact processTopic_levelNumber sl (LingoQuest.currentTheme sl) j
            (xs.getD j Json.undefined)
        · intro xs2 h
          have : xs = xs2 := by
            injection h with h1
            injection h1 with h2
            injection h2 with h3
          rw [mapIdx_length, this]
        · intro h
          exact absurd rfl (h xs)
      | null =>
        refine ⟨LingoQuest.fallbackTopics sl c, rfl, hfallback, ?_, ?_⟩
        · intro xs h
          simp at h
        · intro h
          exact fallbackTopics_length sl c
      | undefined =>
        refine ⟨LingoQuest.fallbackTopics sl c, rfl, hfallback, ?_, ?_⟩
        · intro xs h
          simp at h
        · intro h
          exact fallbackTopics_length sl c
      | bool b =>
        refine ⟨LingoQuest.fallbackTopics sl c, rfl, hfallback, ?_, ?_⟩
        · intro xs h
          simp at h
        · intro h
          exact fallbackTopics_length sl c
      | num n =>
        refine ⟨LingoQuest.fallbackTopics sl c, rfl, hfallback, ?_, ?_⟩
        · intro xs h
          simp at h
        · intro h
          exact fallbackTopics_length sl c
      | str s2 =>
        refine ⟨LingoQuest.fallbackTopics sl c, rfl, hfallback, ?_, ?_⟩
        · intro xs h
          simp at h
        · intro h
          exact fallbackTopics_length sl c
      | obj fs =>
        refine ⟨LingoQuest.fallbackTopics sl c, rfl, hfallback, ?_, ?_⟩
        · intro xs h
          simp at h
        · intro h
          exact fallbackTopics_length sl c

theorem claim_C2_amended_witness :
    (1 ≤ (1 : Nat) ∧ 1 ≤ (10 : Nat) ∧
      LingoQuest.getFromCache (freshStore : Store Json)
        ("topics_" ++ toString 1 ++ "_" ++ toString 10) = none) ∧
    (∃ l : List Json,
      (LingoQuest.generateTopics 1 10 RequestOutcome.fail freshStore).result =
        Json.arr l ∧
      (∀ j, j < l.length →
        (l.getD j Json.undefined).getField "levelNumber" =
          Json.num (Int.ofNat (1 + j))) ∧
      (∀ xs, RequestOutcome.fail = RequestOutcome.ok (some (Json.arr xs)) →
        l.length = xs.length) ∧
      ((∀ xs, RequestOutcome.fail ≠ RequestOutcome.ok (some (Json.arr xs))) →
        l.length = 10)) :=
  ⟨⟨by decide, by decide, rfl⟩,
   claim_C2_amended_contiguous 1 10 RequestOutcome.fail freshStore
     (by decide) (by decide) rfl⟩

/-- C3 counterexample: with an empty cache and the response payload
parsing to the array 1, 2, 3 (wrong element shape), generateTopics(1, 10)
does not return a full-count schema-valid fallback: it maps over the array
and returns three stamped records (not ten), whose first record has no name
field. -/
theorem claim_C3_counterexample :
    (jsonElems (LingoQuest.generateTopics 1 10 payloadArr123
        freshStore).result).length = 3 ∧
    ¬ (jsonElems (LingoQuest.generateTopics 1 10 payloadArr123
        freshStore).result).length = 10 ∧
    (headJson (LingoQuest.generateTopics 1 10 payloadArr123
        freshStore).result).getField "name" = Json.undefined :=
  ⟨rfl, by decide, rfl⟩

/-- C3 amended: for the payloads "not json", an empty object and null,
generateTopics and generateQuestions each return, without throwing, the
full-count fallback batch itself, and generateLocation returns without
throwing (the fallback Location for "not json" and null, and an empty-items
Location with a default theme for the empty object, whose description is
undefined); for the wrong-element-shape array 1, 2, 3, generateQuestions
still returns exactly count records and generateLocation returns an
empty-items Location without throwing, but generateTopics returns one
stamped record per raw element (3 records) rather than a full-count
fallback. -/
theorem claim_C3_amended_resilience (sl c : Nat) (topicName locName : String)
    (d : Difficulty) (seed now : Nat) (hc : 1 ≤ c) :
    ((LingoQuest.generateTopics sl c payloadNotJson freshStore).result =
        Json.arr (LingoQuest.fallbackTopics sl c)) ∧
    ((LingoQuest.generateTopics sl c payloadEmptyObj freshStore).result =
        Json.arr (LingoQuest.fallbackTopics sl c)) ∧
    ((LingoQuest.generateTopics sl c payloadNull freshStore).result =
        Json.arr (LingoQuest.fallbackTopics sl c)) ∧
    ((LingoQuest.fallbackTopics sl c).length = c) ∧
    (LingoQuest.generateQuestions topicName d c payloadNotJson seed now =
      (LingoQuest.generateFallbackQuestions topicName c 0 now).map
        LingoQuest.Question.toJson) ∧
    (LingoQuest.generateQuestions topicName d c payloadEmptyObj seed now =
      (LingoQuest.generateFallbackQuestions topicName c 0 now).map
        LingoQuest.Question.toJson) ∧
    (LingoQuest.generateQuestions topicName d c payloadNull seed now =
      (LingoQuest.generateFallbackQuestions topicName c 0 now).map
        LingoQuest.Question.toJson) ∧
    (((LingoQuest.generateFallbackQuestions topicName c 0 now).map
        LingoQuest.Question.toJson).length = c) ∧
    ((LingoQuest.generateQuestions topicName d c payloadArr123 seed
        now).length = c) ∧
    ((LingoLife.generateLocation locName payloadNotJson freshStore now).result =
        LingoLife.fallbackLocation locName) ∧
    ((LingoLife.generateLocation locName payloadNull freshStore now).result =
        LingoLife.fallbackLocation locName) ∧
    ((LingoLife.generateLocation locName payloadEmptyObj freshStore now).result =
      { id := locName, name := locName, description := Json.undefined,
        backgroundTheme := Json.str "bg-slate-50", items := [],
        exits := Json.arr [] }) ∧
    ((LingoLife.generateLocation locName payloadArr123 freshStore now).result =
      { id := locName, name := locName, description := Json.undefined,
        backgroundTheme := Json.str "bg-slate-50", items := [],
        exits := Json.arr [] }) ∧
    ((jsonElems (LingoQuest.generateTopics sl c payloadArr123
        freshStore).result).length = 3) :=
  ⟨rfl, rfl, rfl, fallbackTopics_length sl c,
   generateQuestions_empty_extract topicName d c none seed now rfl hc,
   generateQuestions_empty_extract topicName d c (some (Json.obj []))
     seed now rfl hc,
   generateQuestions_empty_extract topicName d c (some Json.null)
     seed now rfl hc,
   by rw [List.length_map, generateFallbackQuestions_length],
   generateQuestions_length topicName d c payloadArr123 seed now,
   rfl, rfl, rfl, rfl, rfl⟩

theorem claim_C3_amended_witness :
    1 ≤ (10 : Nat) ∧
    (LingoQuest.generateQuestions "Village of Beginnings" Difficulty.EASY 10
      payloadNull 3 4 =
      (LingoQuest.generateFallbackQuestions "Village of Beginnings" 10 0 4).map
        LingoQuest.Question.toJson) ∧
    (jsonElems (LingoQuest.generateTopics 2 10 payloadArr123
      freshStore).result).length = 3 :=
  ⟨by decide,
   (claim_C3_amended_resilience 2 10 "Village of Beginnings" "Kitchen"
      Difficulty.EASY 3 4 (by decide)).2.2.2.2.2.2.1,
   (claim_C3_amended_resilience 2 10 "Village of Beginnings" "Kitchen"
      Difficulty.EASY 3 4 (by decide)).2.2.2.2.2.2.2.2.2.2.2.2.2⟩

/-- C5 counterexample: the cache key replaces whitespace with underscores
instead of stripping it, so generateLocation("Kitchen") and
generateLocation("kitchen ") use different cache entries: after a successful
generateLocation("Kitchen"), the call with "kitchen " still misses the cache
and issues a second request. -/
theorem claim_C5_counterexample :
    LingoLife.locationCacheKey "Kitchen" = "loc_kitchen" ∧
    LingoLife.locationCacheKey "kitchen " = "loc_kitchen_" ∧
    ¬ LingoLife.locationCacheKey "Kitchen" =
        LingoLife.locationCacheKey "kitchen " ∧
    (LingoLife.generateLocation "kitchen " payloadEmptyObj
      (LingoLife.generateLocation "Kitchen" payloadEmptyObj
        freshStore 0).store 0).requested = true :=
  ⟨by decide, by decide, by decide, rfl⟩

/-- C5 amended: generateLocation derives its cache key by lowercasing the
location name and replacing every whitespace character with an underscore:
generateLocation("Kitchen") and generateLocation("kitchen") read and write
the same cache entry, while generateLocation("kitchen ") (trailing space
becomes a trailing underscore) and generateLocation("Garden") each use a
distinct entry. -/
theorem claim_C5_amended_cache_keys :
    LingoLife.locationCacheKey "Kitchen" = LingoLife.locationCacheKey "kitchen" ∧
    LingoLife.locationCacheKey "Kitchen" ≠ LingoLife.locationCacheKey "kitchen " ∧
    LingoLife.locationCacheKey "Garden" ≠ LingoLife.locationCacheKey "Kitchen" ∧
    LingoLife.locationCacheKey "Garden" ≠ LingoLife.locationCacheKey "kitchen " ∧
    ((LingoLife.generateLocation "kitchen" payloadEmptyObj
        (LingoLife.generateLocation "Kitchen" payloadEmptyObj
          freshStore 0).store 0).requested = false) ∧
    ((LingoLife.generateLocation "kitchen" payloadEmptyObj
        (LingoLife.generateLocation "Kitchen" payloadEmptyObj
          freshStore 0).store 0).result =
      (LingoLife.generateLocation "Kitchen" payloadEmptyObj
        freshStore 0).result) ∧
    ((LingoLife.generateLocation "Garden" payloadEmptyObj
        (LingoLife.generateLocation "Kitchen" payloadEmptyObj
          freshStore 0).store 0).requested = true) :=
  ⟨by decide, by decide, by decide, by decide, rfl, rfl, rfl⟩

/-- C8: for every raw response, every InteractableItem in the Location
returned by generateLocation (on a cache miss) has a usagePatterns value of
positive length, every array-valued usagePatterns is non-empty, and each
item comes from buildItem, which backfills an absent or empty-list
usagePatterns with the singleton holding the legacy exampleSentence
field. -/
theorem claim_C8_usagePatterns_nonempty (locName : String)
    (o : RequestOutcome) (s : Store LingoLife.Location) (now : Nat)
    (hmiss : LingoLife.getFromCache s (LingoLife.locationCacheKey locName) = none) :
    ∀ it ∈ (LingoLife.generateLocation locName o s now).result.items,
      it.wordDetail.usagePatterns.lenPos = true ∧
      (∀ xs, it.wordDetail.usagePatterns = Json.arr xs → xs ≠ []) ∧
      ∃ idx raw, it = LingoLife.buildItem now idx raw ∧
        ((raw.getField "usagePatterns" = Json.undefined ∨
            raw.getField "usagePatterns" = Json.arr []) →
          it.wordDetail.usagePatterns =
            Json.arr [raw.getField "exampleSentence"]) := by
  cases o with
  | fail =>
    rw [generateLocation_miss locName RequestOutcome.fail s now hmiss]
    intro it hit
    have hit2 : it ∈ ([] : List LingoLife.LocItem) := hit
    cases hit2
  | ok parsed =>
    cases parsed with
    | none =>
      rw [generateLocation_miss locName (RequestOutcome.ok none) s now hmiss]
      intro it hit
      have hit2 : it ∈ ([] : List LingoLife.LocItem) := hit
      cases hit2
    | some data =>
      have hres2 : LingoLife.generateLocation locName
          (RequestOutcome.ok (some data)) s now =
          (match LingoLife.buildLocation locName data now with
          | none => ⟨LingoLife.fallbackLocation locName, s, true⟩
          | some loc =>
              ⟨loc, LingoLife.saveToCache s (LingoLife.locationCacheKey locName)
                loc, true⟩) := by
        rw [generateLocation_miss locName (RequestOutcome.ok (some data))
          s now hmiss]
      rw [hres2]
      cases hb : LingoLife.buildLocation locName data now with
      | none =>
        intro it hit
        have hit2 : it ∈ ([] : List LingoLife.LocItem) := hit
        cases hit2
      | some loc =>
        intro it hit
        have hit2 : it ∈ loc.items := hit
        have hitems : ∃ rawItems : List Json,
            loc.items = mapIdx (fun idx item => LingoLife.buildItem now idx item)
              0 rawItems := by
          unfold LingoLife.buildLocation at hb
          split at hb
          · cases hb
          · split at hb
            · split at hb
              · cases hb
              · injection hb with hb2
                exact ⟨_, by rw [← hb2]⟩
            · cases hb
        rcases hitems with ⟨rawItems, hli⟩
        rw [hli] at hit2
        rcases mapIdx_mem hit2 with ⟨idx, raw, hraw, rfl⟩
        rcases buildItem_usagePatterns now idx raw with ⟨h1, h2, h3⟩
        exact ⟨h1, h2, idx, raw, rfl, h3⟩

theorem claim_C8_witness :
    (LingoLife.getFromCache (freshStore : Store LingoLife.Location)
      (LingoLife.locationCacheKey "Kitchen") = none) ∧
    ((LingoLife.buildItem 5 0
        (Json.obj [("exampleSentence",
          Json.str "I use it daily.")])).wordDetail.usagePatterns.lenPos =
      true) ∧
    ((LingoLife.buildItem 5 0
        (Json.obj [("exampleSentence",
          Json.str "I use it daily.")])).wordDetail.usagePatterns =
        Json.arr [(Json.obj [("exampleSentence",
          Json.str "I use it daily.")]).getField "exampleSentence"]) := by
  have happ := claim_C8_usagePatterns_nonempty "Kitchen"
    (RequestOutcome.ok (some (Json.obj [("items", Json.arr
      [Json.obj [("exampleSentence", Json.str "I use it daily.")]])])))
    freshStore 5 rfl
    (LingoLife.buildItem 5 0
      (Json.obj [("exampleSentence", Json.str "I use it daily.")]))
    (by
      show LingoLife.buildItem 5 0
          (Json.obj [("exampleSentence", Json.str "I use it daily.")]) ∈
        [LingoLife.buildItem 5 0
          (Json.obj [("exampleSentence", Json.str "I use it daily.")])]
      exact List.mem_singleton.mpr rfl)
  refine ⟨rfl, happ.1, ?_⟩
  rcases happ with ⟨h1, h2, idx, raw, heq, h3⟩
  exact (buildItem_usagePatterns 5 0
    (Json.obj [("exampleSentence", Json.str "I use it daily.")])).2.2
    (Or.inl rfl)

/-- C4: with a functioning store, a cache miss and a successful first call
(array payload free of undefined), a second generateTopics call with the
same arguments returns records identical to the first call result and leaves
the store unchanged, and the external request is issued exactly once across
the two calls (by the first call only), whatever the second request would
have returned. -/
theorem claim_C4_cache_idempotent (sl c : Nat) (xs : List Json)
    (s : Store Json) (o2 : RequestOutcome)
    (hget : s.getThrows = false) (hset : s.setThrows = false)
    (hmiss : LingoQuest.getFromCache s
      ("topics_" ++ toString sl ++ "_" ++ toString c) = none)
    (huf : (Json.arr xs).undefFree = true) :
    ((LingoQuest.generateTopics sl c o2
        (LingoQuest.generateTopics sl c
          (RequestOutcome.ok (some (Json.arr xs))) s).store).result =
      (LingoQuest.generateTopics sl c
        (RequestOutcome.ok (some (Json.arr xs))) s).result) ∧
    ((LingoQuest.generateTopics sl c o2
        (LingoQuest.generateTopics sl c
          (RequestOutcome.ok (some (Json.arr xs))) s).store).store =
      (LingoQuest.generateTopics sl c
        (RequestOutcome.ok (some (Json.arr xs))) s).store) ∧
    ((LingoQuest.generateTopics sl c
        (RequestOutcome.ok (some (Json.arr xs))) s).requested = true) ∧
    ((LingoQuest.generateTopics sl c o2
        (LingoQuest.generateTopics sl c
          (RequestOutcome.ok (some (Json.arr xs))) s).store).requested =
      false) := by
  have hr1 : LingoQuest.generateTopics sl c
      (RequestOutcome.ok (some (Json.arr xs))) s =
      ⟨Json.arr (mapIdx
          (fun i t => LingoQuest.processTopic sl (LingoQuest.currentTheme sl) i t)
          0 xs),
        LingoQuest.saveToCache s ("topics_" ++ toString sl ++ "_" ++ toString c)
          (Json.arr (mapIdx
            (fun i t => LingoQuest.processTopic sl (LingoQuest.currentTheme sl) i t)
            0 xs)), true⟩ := by
    rw [generateTopics_miss sl c (RequestOutcome.ok (some (Json.arr xs))) s hmiss]
  have hufp : (Json.arr (mapIdx
      (fun i t => LingoQuest.processTopic sl (LingoQuest.currentTheme sl) i t)
      0 xs)).undefFree = true := by
    simp only [Json.undefFree]
    rw [undefFreeList_iff]
    intro x hx
    rcases mapIdx_mem hx with ⟨j, t, ht, rfl⟩
    exact undefFree_processTopic sl (LingoQuest.currentTheme sl) j t
      ((undefFreeList_iff xs).mp (by simpa [Json.undefFree] using huf) t ht)
  have hrt : (Json.arr (mapIdx
      (fun i t => LingoQuest.processTopic sl (LingoQuest.currentTheme sl) i t)
      0 xs)).roundTrip =
      Json.arr (mapIdx
        (fun i t => LingoQuest.processTopic sl (LingoQuest.currentTheme sl) i t)
        0 xs) :=
    roundTrip_eq_self _ hufp
  have hsave : LingoQuest.saveToCache s
      ("topics_" ++ toString sl ++ "_" ++ toString c)
      (Json.arr (mapIdx
        (fun i t => LingoQuest.processTopic sl (LingoQuest.currentTheme sl) i t)
        0 xs)) =
      ⟨(LingoQuest.CACHE_PREFIX ++
          ("topics_" ++ toString sl ++ "_" ++ toString c),
        Json.arr (mapIdx
          (fun i t => LingoQuest.processTopic sl (LingoQuest.currentTheme sl) i t)
          0 xs)) :: s.entries,
        s.getThrows, s.setThrows⟩ := by
    unfold LingoQuest.saveToCache
    rw [if_neg (by simp [hset]), hrt]
  have hhit : LingoQuest.getFromCache
      (LingoQuest.saveToCache s ("topics_" ++ toString sl ++ "_" ++ toString c)
        (Json.arr (mapIdx
          (fun i t => LingoQuest.processTopic sl (LingoQuest.currentTheme sl) i t)
          0 xs)))
      ("topics_" ++ toString sl ++ "_" ++ toString c) =
      some (Json.arr (mapIdx
        (fun i t => LingoQuest.processTopic sl (LingoQuest.currentTheme sl) i t)
        0 xs)) := by
    rw [hsave]
    unfold LingoQuest.getFromCache Store.read
    simp [hget]
  have hr2 : LingoQuest.generateTopics sl c o2
      (LingoQuest.saveToCache s ("topics_" ++ toString sl ++ "_" ++ toString c)
        (Json.arr (mapIdx
          (fun i t => LingoQuest.processTopic sl (LingoQuest.currentTheme sl) i t)
          0 xs))) =
      ⟨Json.arr (mapIdx
          (fun i t => LingoQuest.processTopic sl (LingoQuest.currentTheme sl) i t)
          0 xs),
        LingoQuest.saveToCache s ("topics_" ++ toString sl ++ "_" ++ toString c)
          (Json.arr (mapIdx
            (fun i t => LingoQuest.processTopic sl (LingoQuest.currentTheme sl) i t)
            0 xs)), false⟩ := by
    unfold LingoQuest.generateTopics
    simp only [hhit]
    exact if_pos rfl
  refine ⟨?_, ?_, ?_, ?_⟩
  · rw [hr1]
    show (LingoQuest.generateTopics sl c o2
      (LingoQuest.saveToCache s ("topics_" ++ toString sl ++ "_" ++ toString c)
        (Json.arr (mapIdx
          (fun i t => LingoQuest.processTopic sl (LingoQuest.currentTheme sl) i t)
          0 xs)))).result =
      Json.arr (mapIdx
        (fun i t => LingoQuest.processTopic sl (LingoQuest.currentTheme sl) i t)
        0 xs)
    rw [hr2]
  · rw [hr1]
    show (LingoQuest.generateTopics sl c o2
      (LingoQuest.saveToCache s ("topics_" ++ toString sl ++ "_" ++ toString c)
        (Json.arr (mapIdx
          (fun i t => LingoQuest.processTopic sl (LingoQuest.currentTheme sl) i t)
          0 xs)))).store =
      LingoQuest.saveToCache s ("topics_" ++ toString sl ++ "_" ++ toString c)
        (Json.arr (mapIdx
          (fun i t => LingoQuest.processTopic sl (LingoQuest.currentTheme sl) i t)
          0 xs))
    rw [hr2]
  · rw [hr1]
  · rw [hr1]
    show (LingoQuest.generateTopics sl c o2
      (LingoQuest.saveToCache s ("topics_" ++ toString sl ++ "_" ++ toString c)
        (Json.arr (mapIdx
          (fun i t => LingoQuest.processTopic sl (LingoQuest.currentTheme sl) i t)
          0 xs)))).requested = false
    rw [hr2]

theorem claim_C4_witness :
    (LingoQuest.getFromCache (freshStore : Store Json)
        ("topics_" ++ toString 1 ++ "_" ++ toString 10) = none ∧
      (Json.arr ([] : List Json)).undefFree = true) ∧
    ((LingoQuest.generateTopics 1 10 RequestOutcome.fail
        (LingoQuest.generateTopics 1 10
          (RequestOutcome.ok (some (Json.arr []))) freshStore).store).result =
      (LingoQuest.generateTopics 1 10
        (RequestOutcome.ok (some (Json.arr []))) freshStore).result) ∧
    ((LingoQuest.generateTopics 1 10
        (RequestOutcome.ok (some (Json.arr []))) freshStore).requested =
      true) ∧
    ((LingoQuest.generateTopics 1 10 RequestOutcome.fail
        (LingoQuest.generateTopics 1 10
          (RequestOutcome.ok (some (Json.arr []))) freshStore).store).requested =
      false) :=
  ⟨⟨rfl, rfl⟩,
   (claim_C4_cache_idempotent 1 10 [] freshStore RequestOutcome.fail
     rfl rfl rfl rfl).1,
   (claim_C4_cache_idempotent 1 10 [] freshStore RequestOutcome.fail
     rfl rfl rfl rfl).2.2.1,
   (claim_C4_cache_idempotent 1 10 [] freshStore RequestOutcome.fail
     rfl rfl rfl rfl).2.2.2⟩
